import Mathlib

/-!
# SQLCopilot demo — verification of the question-to-insight pipeline

Shallow embedding of the two source files of the repository:

* `app.py` — code-fence extraction inside `generate_sql_from_question`,
  the Result Validator `basic_result_validation`, and the
  `generate_button` orchestration handler;
* `init_db.py` — the two historical versions of the fixture builder
  `create_db` (the malformed earlier variant and the corrected one).

Python strings are embedded as `List Char`; machine floats appearing in
the validator and the fixture generator are embedded as `Rat`; the
pseudo-random draws of the fixture generator are embedded as explicit
inputs carrying the ranges the Python `random` primitives guarantee.
-/

/-! ## Python string primitives used by `app.py`

All functions are structurally recursive so that concrete runs reduce in
the kernel. -/

/-- Characters removed by Python `str.strip()` (ASCII whitespace). -/
def isPyWS (c : Char) : Bool :=
  c = ' ' || c = '\t' || c = '\n' || c = '\r' || c = '\x0b' || c = '\x0c'

/-- Drop leading whitespace characters. -/
def dropLeadingWS : List Char → List Char
  | [] => []
  | c :: rest => if isPyWS c then dropLeadingWS rest else c :: rest

/-- Python `s.strip()`: remove whitespace at both ends. -/
def pyStrip (s : List Char) : List Char :=
  dropLeadingWS (dropLeadingWS s.reverse).reverse

/-- Python `pat in s`: contiguous-substring test. -/
def containsSeq (pat : List Char) : List Char → Bool
  | [] => pat.isEmpty
  | c :: rest => pat.isPrefixOf (c :: rest) || containsSeq pat rest

/-- Worker for `pySplit`; the fuel bounds the number of scanning steps and
is always at least the length of the text, so it never runs out. -/
def splitOnGo (sep : List Char) : Nat → List Char → List Char → List (List Char)
  | _, [], acc => [acc.reverse]
  | 0, s, acc => [acc.reverse ++ s]
  | fuel + 1, c :: rest, acc =>
    if sep.isPrefixOf (c :: rest) then
      acc.reverse :: splitOnGo sep fuel (List.drop sep.length (c :: rest)) []
    else
      splitOnGo sep fuel rest (c :: acc)

/-- Python `s.split(sep)` for a non-empty separator. -/
def pySplit (s sep : List Char) : List (List Char) :=
  splitOnGo sep s.length s []

/-- Worker for `removeAll`; fuel as in `splitOnGo`. -/
def removeAllGo (pat : List Char) : Nat → List Char → List Char
  | _, [] => []
  | 0, s => s
  | fuel + 1, c :: rest =>
    if pat.isPrefixOf (c :: rest) then
      removeAllGo pat fuel (List.drop pat.length (c :: rest))
    else
      c :: removeAllGo pat fuel rest

/-- Python `s.replace(pat, "")` for a non-empty pattern: remove every
occurrence, scanning left to right. -/
def removeAll (s pat : List Char) : List Char :=
  removeAllGo pat s.length s

/-- Python `s.upper()` on the ASCII text handled here. -/
def pyUpper (s : List Char) : List Char := s.map Char.toUpper

/-! ## Code-fence extraction (`app.py`, `generate_sql_from_question`)

The network call is abstracted away: the extraction is a pure function of
the raw model response, exactly as the post-processing block of
`generate_sql_from_question` computes it. -/

/-- The code-fence delimiter the response is split on. -/
def fence : List Char := "```".toList

/-- The language tag removed by `sql = sql.replace("sql", "")`. -/
def sqlTag : List Char := "sql".toList

/-- Test of the loop body `if "SELECT" in part.upper()`. -/
def hasSelect (part : List Char) : Bool :=
  containsSeq "SELECT".toList (pyUpper part)

/-- The `for part in parts: ... break` scan: first segment whose upper-case
form contains `SELECT`. -/
def findSelectPart : List (List Char) → Option (List Char)
  | [] => none
  | p :: ps => if hasSelect p then some p else findSelectPart ps

/-- Post-processing of the raw translator response in
`generate_sql_from_question`: strip, and if a code fence is present, pick
the first fenced segment containing `SELECT` (keeping the stripped whole
text when none does), then remove every `"sql"` token and strip again. -/
def extract_sql (raw : String) : String :=
  let sql0 := pyStrip raw.toList
  if containsSeq fence sql0 then
    let sql1 :=
      match findSelectPart (pySplit sql0 fence) with
      | some p => p
      | none => sql0
    ⟨pyStrip (removeAll sql1 sqlTag)⟩
  else ⟨sql0⟩

/-- The extraction step as the specification words it: when the response is
fenced and some segment contains `SELECT`, that segment with the language
tag stripped; when the fenced segments contain no `SELECT`, the original
trimmed text verbatim. -/
def spec_extract (raw : String) : String :=
  let t := pyStrip raw.toList
  if containsSeq fence t then
    match (pySplit t fence).find? hasSelect with
    | some p => ⟨pyStrip (removeAll p sqlTag)⟩
    | none => ⟨t⟩
  else ⟨t⟩

/-! ## Result Validator (`app.py`, `basic_result_validation`)

A query result is embedded as named columns over rows of rationals (the
validator only ever reads the numeric columns `amount` and `is_fraud`).
The human-readable strings are abstracted into one constructor per
message, keeping the numbers they would display. -/

/-- One advisory message of the validator, one constructor per `checks.append`. -/
inductive CheckMsg
  /-- "Query returned 0 rows. Please double-check filters or logic." -/
  | emptyWarning
  /-- "Query returned {n} rows and {c} columns." -/
  | rowColInfo (nrows ncols : Nat)
  /-- "Total amount in result set: ..." -/
  | totalAmount (total : Rat)
  /-- "Total amount is negative. ..." -/
  | negativeAmount
  /-- "Total amount is zero. ..." -/
  | zeroAmount
  /-- "Estimated fraud rate in this result: ..." -/
  | fraudRate (rate : Rat)
  /-- "Fraud rate seems unusually high. ..." -/
  | highFraud
  /-- "Fraud rate is very low in this slice. ..." -/
  | lowFraud
  deriving DecidableEq

/-- A materialized query result: column names plus rows of cells. -/
structure DataFrame where
  columns : List String
  rows : List (List Rat)
  deriving DecidableEq

/-- Pandas `df.empty`: true when either axis has length zero. -/
def DataFrame.isEmptyDf (df : DataFrame) : Bool :=
  df.rows.isEmpty || df.columns.isEmpty

/-- Index of a column name in the header list (first occurrence). -/
def colIndex (name : String) : List String → Option Nat
  | [] => none
  | c :: rest => if c == name then some 0 else (colIndex name rest).map (· + 1)

/-- Column extraction `df["name"]`: present iff the name occurs in
`df.columns`; cells are read at the column's first index. -/
def DataFrame.col (df : DataFrame) (name : String) : Option (List Rat) :=
  (colIndex name df.columns).map
    fun i => df.rows.map fun r => r.getD i 0

/-- The validator's return value (`{"summary": checks}`). -/
structure ValidationResult where
  summary : List CheckMsg
  deriving DecidableEq

/-- Classifier: messages that only the amount block can emit. -/
def CheckMsg.isAmountMsg : CheckMsg → Bool
  | CheckMsg.totalAmount _ => true
  | CheckMsg.negativeAmount => true
  | CheckMsg.zeroAmount => true
  | _ => false

/-- Classifier: messages that only the fraud block can emit. -/
def CheckMsg.isFraudMsg : CheckMsg → Bool
  | CheckMsg.fraudRate _ => true
  | CheckMsg.highFraud => true
  | CheckMsg.lowFraud => true
  | _ => false

/-- The amount block of `basic_result_validation`: report the sum, then
warn if negative, else flag if exactly zero. -/
def amountChecks (vals : List Rat) : List CheckMsg :=
  let total := vals.sum
  CheckMsg.totalAmount total ::
    (if total < 0 then [CheckMsg.negativeAmount]
     else if total = 0 then [CheckMsg.zeroAmount]
     else [])

/-- The fraud block of `basic_result_validation`: report the mean as a
percentage, then warn above 10, else note below 0.1. -/
def fraudChecks (vals : List Rat) : List CheckMsg :=
  let rate := vals.sum / (vals.length : Rat) * 100
  CheckMsg.fraudRate rate ::
    (if rate > 10 then [CheckMsg.highFraud]
     else if rate < 1 / 10 then [CheckMsg.lowFraud]
     else [])

/-- `basic_result_validation` from `app.py`: empty-result early return,
then the row/column info message, then the amount block when an `amount`
column is present, then the fraud block when an `is_fraud` column is
present. -/
def basic_result_validation (df : DataFrame) : ValidationResult :=
  if df.isEmptyDf then ⟨[CheckMsg.emptyWarning]⟩
  else
    ⟨CheckMsg.rowColInfo df.rows.length df.columns.length ::
      ((match df.col "amount" with
        | none => []
        | some v => amountChecks v) ++
       (match df.col "is_fraud" with
        | none => []
        | some v => fraudChecks v))⟩

/-! ## Fixture generator (`init_db.py`)

The file holds two complete versions of `create_db`; the later one
(drop-and-recreate, nine-column insert) is the corrected variant the
specification designates as canonical, and is the one embedded as a state
transformer. The pseudo-random draws of one loop iteration are embedded
as an explicit input record; `randint`/`choice` guarantee membership in
their ranges by construction. -/

/-- The `states` pool. -/
def states : List String := ["NY", "CA", "TX", "WA", "FL", "IL", "NJ", "VA", "NV", "AZ"]

/-- The `card_types` pool. -/
def card_types : List String := ["Platinum", "Gold", "Silver", "Freedom", "Basic"]

/-- The `channels` pool. -/
def channels : List String := ["Online", "Branch", "Mobile", "ATM", "POS"]

/-- The `merchant_cats` pool. -/
def merchant_cats : List String :=
  ["Grocery", "Travel", "Dining", "Fuel", "Shopping", "Entertainment", "Utilities"]

/-- The A/B version pool `["A", "B"]`. -/
def abVersions : List String := ["A", "B"]

/-- The raw pseudo-random draws of one loop iteration. `amountU` is the
value of `random.uniform(5, 5000)` and `fraudU` the value of
`random.random()`; the integer draws are arbitrary naturals reduced into
range by `randint`/`choice`. `categoryRand` is the extra
`random.choice(merchant_cats)` drawn only by the earlier variant. -/
structure RandDraw where
  customerRand : Nat
  stateRand : Nat
  cardRand : Nat
  channelRand : Nat
  merchantRand : Nat
  categoryRand : Nat
  daysRand : Nat
  amountU : Rat
  fraudU : Rat
  versionRand : Nat

/-- `random.randint(a, b)`: a value in `[a, b]`. -/
def randint (a b r : Nat) : Nat := a + r % (b - a + 1)

/-- `random.choice(l)`: an element of the non-empty pool `l`. -/
def choice (l : List String) (r : Nat) : String := l.getD (r % l.length) ""

/-- Python `round(x, 2)` on the embedded rationals. -/
def round2 (q : Rat) : Rat := ((round (q * 100) : Int) : Rat) / 100

/-- One synthetic transaction row, without the autoincrement key. The
transaction date `today - timedelta(days=days_ago)` is kept as `daysAgo`
relative to the build date. -/
structure TxRecord where
  customer_id : Nat
  state : String
  card_type : String
  channel : String
  daysAgo : Nat
  amount : Rat
  is_fraud : Nat
  merchant_cat : String
  product_version : String
  deriving DecidableEq

/-- The loop body of the corrected `create_db`. -/
def v2_row (d : RandDraw) : TxRecord :=
  { customer_id := randint 10000 99999 d.customerRand
    state := choice states d.stateRand
    card_type := choice card_types d.cardRand
    channel := choice channels d.channelRand
    daysAgo := randint 0 365 d.daysRand
    amount := round2 d.amountU
    is_fraud := if d.fraudU < 3 / 100 then 1 else 0
    merchant_cat := choice merchant_cats d.merchantRand
    product_version := choice abVersions d.versionRand }

/-- The `card_transactions` table: the AUTOINCREMENT counter (next
`transaction_id`, starting at 1 on a fresh table) and the stored rows,
keyed by their assigned identifiers. -/
structure Table where
  nextId : Nat
  rows : List (Nat × TxRecord)

/-- One row insert: the AUTOINCREMENT key is assigned and bumped. -/
def Table.insertRow (t : Table) (r : TxRecord) : Table :=
  ⟨t.nextId + 1, t.rows ++ [(t.nextId, r)]⟩

/-- `cur.executemany(...)`: insert the rows in order. -/
def Table.insertMany (t : Table) (rs : List TxRecord) : Table :=
  rs.foldl Table.insertRow t

/-- The table built by one run of the corrected `create_db`: a fresh table
(`DROP TABLE IF EXISTS` then `CREATE TABLE` resets the AUTOINCREMENT
sequence to 1) filled with the 5000 generated rows. -/
def builtTable (draws : Nat → RandDraw) : Table :=
  Table.insertMany ⟨1, []⟩ (((List.range 5000).map draws).map v2_row)

/-- The corrected `create_db` (second version in `init_db.py`) as a
transformer of the database state (`none` = table absent): it drops any
existing table and rebuilds it from scratch, so the prior state is
ignored. -/
def create_db (db : Option Table) (draws : Nat → RandDraw) : Option Table :=
  some (builtTable draws)

/-! ## The two INSERT statements of `init_db.py`

Embedded structurally for the comparison the specification makes between
the malformed earlier variant and the corrected one: the column-name
list, the number of `?` placeholders, and the tuple of bound values per
row. -/

/-- A value bound into an INSERT placeholder. The formatted transaction
date is kept as its `daysAgo` offset. -/
inductive PyVal
  | intv (n : Int)
  | strv (s : String)
  | realv (q : Rat)
  | datev (daysAgo : Nat)
  deriving DecidableEq

/-- Column list of the earlier variant's INSERT (`merchant_cat` twice). -/
def v1_insert_columns : List String :=
  ["customer_id", "state", "card_type", "channel",
   "transaction_date", "amount", "is_fraud",
   "merchant_cat", "product_version", "merchant_cat"]

/-- Number of `?` placeholders in the earlier variant's VALUES clause. -/
def v1_placeholders : Nat := 10

/-- Column list of the corrected variant's INSERT. -/
def v2_insert_columns : List String :=
  ["customer_id", "state", "card_type", "channel",
   "transaction_date", "amount", "is_fraud",
   "merchant_cat", "product_version"]

/-- Number of `?` placeholders in the corrected variant's VALUES clause. -/
def v2_placeholders : Nat := 9

/-- The tuple appended to `rows` by the earlier variant's loop:
`(customer_id, state, card, channel, date, amount, is_fraud, category,
version, "Grocery")` — ten values, ending in the stray literal. -/
def v1_row (d : RandDraw) : List PyVal :=
  [PyVal.intv (randint 10000 99999 d.customerRand),
   PyVal.strv (choice states d.stateRand),
   PyVal.strv (choice card_types d.cardRand),
   PyVal.strv (choice channels d.channelRand),
   PyVal.datev (randint 0 365 d.daysRand),
   PyVal.realv (round2 d.amountU),
   PyVal.intv (if d.fraudU < 3 / 100 then 1 else 0),
   PyVal.strv (choice merchant_cats d.categoryRand),
   PyVal.strv (choice abVersions d.versionRand),
   PyVal.strv "Grocery"]

/-- The tuple appended to `rows` by the corrected variant's loop: the nine
record fields in insert order. -/
def TxRecord.boundValues (r : TxRecord) : List PyVal :=
  [PyVal.intv r.customer_id,
   PyVal.strv r.state,
   PyVal.strv r.card_type,
   PyVal.strv r.channel,
   PyVal.datev r.daysAgo,
   PyVal.realv r.amount,
   PyVal.intv r.is_fraud,
   PyVal.strv r.merchant_cat,
   PyVal.strv r.product_version]

/-- A concrete draw used by the closed statements below. -/
def sampleDraw : RandDraw := ⟨0, 0, 0, 0, 0, 0, 0, 5, 0, 0⟩

/-! ## Orchestration (`app.py`, the `generate_button` handler)

The handler is embedded as a pure transition on the persisted session
state, with the two service calls passed in as oracles. `reported` is the
message shown by `st.warning`/`st.error` before `st.stop()` (`none` when
the cycle completes), and the two counters record how often each oracle
is invoked — the source calls each at most once, with no retry. -/

/-- The persisted `st.session_state` slots the handler writes. -/
structure SessionState where
  last_question : Option String
  last_sql : Option String
  last_df : Option DataFrame
  deriving DecidableEq

/-- Result of one interaction cycle. -/
structure HandlerOutcome where
  state : SessionState
  reported : Option String
  translateCalls : Nat
  executeCalls : Nat
  deriving DecidableEq

/-- The `if generate_button:` block of `app.py`: empty-question guard,
translation step, execution step, then the single assignment of the three
session slots. Each failing step reports and stops, leaving the session
state untouched. -/
def handle_generate (s : SessionState) (question : String)
    (translate : String → Except String String)
    (execute : String → Except String DataFrame) : HandlerOutcome :=
  if pyStrip question.toList = [] then
    ⟨s, some "Please enter a question first.", 0, 0⟩
  else
    match translate question with
    | Except.error e => ⟨s, some ("Error calling OpenAI API: " ++ e), 1, 0⟩
    | Except.ok sql =>
      match execute sql with
      | Except.error e => ⟨s, some ("Error running SQL: " ++ e), 1, 1⟩
      | Except.ok df => ⟨⟨some question, some sql, some df⟩, none, 1, 1⟩

/-! ## Theorems -/

/-- The explicit loop agrees with `List.find?`. -/
theorem findSelectPart_eq_find? (l : List (List Char)) :
    findSelectPart l = l.find? hasSelect := by
  induction l with
  | nil => rfl
  | cons p ps ih =>
    by_cases h : hasSelect p = true
    · simp [findSelectPart, List.find?, h]
    · simp [findSelectPart, List.find?, h, ih]

/-- Characterization of membership in the amount block. -/
theorem mem_amountChecks_iff (m : CheckMsg) (v : List Rat) :
    m ∈ amountChecks v ↔
      m = CheckMsg.totalAmount v.sum ∨
      (m = CheckMsg.negativeAmount ∧ v.sum < 0) ∨
      (m = CheckMsg.zeroAmount ∧ ¬ v.sum < 0 ∧ v.sum = 0) := by
  by_cases h1 : v.sum < 0
  · simp [amountChecks, h1]
  · by_cases h2 : v.sum = 0 <;> simp [amountChecks, h1, h2]

/-- Characterization of membership in the fraud block. -/
theorem mem_fraudChecks_iff (m : CheckMsg) (v : List Rat) :
    m ∈ fraudChecks v ↔
      m = CheckMsg.fraudRate (v.sum / (v.length : Rat) * 100) ∨
      (m = CheckMsg.highFraud ∧ v.sum / (v.length : Rat) * 100 > 10) ∨
      (m = CheckMsg.lowFraud ∧ ¬ v.sum / (v.length : Rat) * 100 > 10 ∧
        v.sum / (v.length : Rat) * 100 < 1 / 10) := by
  by_cases h1 : v.sum / (v.length : Rat) * 100 > 10
  · simp [fraudChecks, h1]
  · by_cases h2 : v.sum / (v.length : Rat) * 100 < 1 / 10 <;>
      simp [fraudChecks, h1, h2] <;> tauto

/-- Membership in the summary of a non-empty result. -/
theorem mem_summary_iff (df : DataFrame) (hne : df.isEmptyDf = false) (m : CheckMsg) :
    m ∈ (basic_result_validation df).summary ↔
      m = CheckMsg.rowColInfo df.rows.length df.columns.length ∨
      (∃ v, df.col "amount" = some v ∧ m ∈ amountChecks v) ∨
      (∃ v, df.col "is_fraud" = some v ∧ m ∈ fraudChecks v) := by
  simp only [basic_result_validation, hne]
  cases ha : df.col "amount" <;> cases hf : df.col "is_fraud" <;>
    simp [ha, hf]

/-- C1 (corrected): after stripping, a response containing a code fence is
split on the fence; the extraction returns the first fenced segment whose
upper-cased form contains `SELECT`, with every `"sql"` token removed and
whitespace re-trimmed; when no segment contains `SELECT`, the same
tag-removal and re-trim are applied to the whole stripped response (it is
not returned verbatim); a response with no fence is returned stripped. -/
theorem extract_sql_characterization (raw : String) :
    (containsSeq fence (pyStrip raw.toList) = true →
      (∀ p, (pySplit (pyStrip raw.toList) fence).find? hasSelect = some p →
        extract_sql raw = ⟨pyStrip (removeAll p sqlTag)⟩) ∧
      ((pySplit (pyStrip raw.toList) fence).find? hasSelect = none →
        extract_sql raw = ⟨pyStrip (removeAll (pyStrip raw.toList) sqlTag)⟩)) ∧
    (containsSeq fence (pyStrip raw.toList) = false →
      extract_sql raw = ⟨pyStrip raw.toList⟩) := by
  constructor
  · intro hf
    have hf' : containsSeq fence (pyStrip raw.data) = true := hf
    constructor
    · intro p hp
      have hp' : List.find? hasSelect (pySplit (pyStrip raw.data) fence) = some p := hp
      simp [extract_sql, findSelectPart_eq_find?, hf', hp']
    · intro hp
      have hp' : List.find? hasSelect (pySplit (pyStrip raw.data) fence) = none := hp
      simp [extract_sql, findSelectPart_eq_find?, hf', hp']
  · intro hf
    have hf' : containsSeq fence (pyStrip raw.data) = false := hf
    simp [extract_sql, hf']

/-- C1 witness: a fenced response whose segment holds a `SELECT` statement. -/
theorem extract_sql_characterization_witness :
    (containsSeq fence (pyStrip ("```sql\nSELECT 1\n```" : String).toList) = true →
      (∀ p, (pySplit (pyStrip ("```sql\nSELECT 1\n```" : String).toList) fence).find?
          hasSelect = some p →
        extract_sql "```sql\nSELECT 1\n```" = ⟨pyStrip (removeAll p sqlTag)⟩) ∧
      ((pySplit (pyStrip ("```sql\nSELECT 1\n```" : String).toList) fence).find?
          hasSelect = none →
        extract_sql "```sql\nSELECT 1\n```"
          = ⟨pyStrip (removeAll (pyStrip ("```sql\nSELECT 1\n```" : String).toList) sqlTag)⟩)) ∧
    (containsSeq fence (pyStrip ("```sql\nSELECT 1\n```" : String).toList) = false →
      extract_sql "```sql\nSELECT 1\n```" = ⟨pyStrip ("```sql\nSELECT 1\n```" : String).toList⟩) :=
  extract_sql_characterization "```sql\nSELECT 1\n```"

/-- C1 counterexample: a fenced response none of whose segments contains
`SELECT` is not returned as the original trimmed text — the `"sql"` tag
removal still fires on it. -/
theorem extract_sql_not_verbatim :
    containsSeq fence (pyStrip ("```sql\nUPDATE t SET flag = 1\n```" : String).toList) = true ∧
    (pySplit (pyStrip ("```sql\nUPDATE t SET flag = 1\n```" : String).toList) fence).find?
      hasSelect = none ∧
    extract_sql "```sql\nUPDATE t SET flag = 1\n```" ≠ "```sql\nUPDATE t SET flag = 1\n```" ∧
    pyStrip ("```sql\nUPDATE t SET flag = 1\n```" : String).toList
      = ("```sql\nUPDATE t SET flag = 1\n```" : String).toList := by
  refine ⟨by decide, by decide, by decide, by decide⟩

/-- C2: an empty result yields exactly the single empty-result warning;
no amount or fraud check runs. -/
theorem validation_empty_single (df : DataFrame) (h : df.isEmptyDf = true) :
    basic_result_validation df = ⟨[CheckMsg.emptyWarning]⟩ := by
  simp [basic_result_validation, h]

/-- C2 witness: a result with a column but no rows. -/
theorem validation_empty_single_witness :
    (⟨["state"], []⟩ : DataFrame).isEmptyDf = true ∧
    basic_result_validation ⟨["state"], []⟩ = ⟨[CheckMsg.emptyWarning]⟩ :=
  ⟨by decide, validation_empty_single ⟨["state"], []⟩ (by decide)⟩

/-- C5: for a non-empty result the first emitted message is the row/column
count information. -/
theorem validation_first_message (df : DataFrame) (hne : df.isEmptyDf = false) :
    ((basic_result_validation df).summary).head? =
      some (CheckMsg.rowColInfo df.rows.length df.columns.length) := by
  simp [basic_result_validation, hne]

/-- C5 witness: a one-row, one-column result. -/
theorem validation_first_message_witness :
    (⟨["state"], [[1]]⟩ : DataFrame).isEmptyDf = false ∧
    ((basic_result_validation ⟨["state"], [[1]]⟩).summary).head? =
      some (CheckMsg.rowColInfo 1 1) :=
  ⟨by decide, validation_first_message ⟨["state"], [[1]]⟩ (by decide)⟩

/-- A column is extracted iff its name occurs among the headers. -/
theorem colIndex_eq_none_iff (name : String) (l : List String) :
    colIndex name l = none ↔ name ∉ l := by
  induction l with
  | nil => simp [colIndex]
  | cons c rest ih =>
    by_cases h : c = name
    · subst h; simp [colIndex]
    · simp [colIndex, h, ih, Option.map_eq_none', Ne.symm h]

/-- C3: for a non-empty result with an amount column, a sum of exactly
zero yields the zero-amount warning and not the negative-amount warning;
a negative sum yields the negative-amount warning and not the zero-amount
warning. -/
theorem validation_amount_zero_negative (df : DataFrame) (vals : List Rat)
    (hne : df.isEmptyDf = false) (hcol : df.col "amount" = some vals) :
    (vals.sum = 0 →
      CheckMsg.zeroAmount ∈ (basic_result_validation df).summary ∧
      CheckMsg.negativeAmount ∉ (basic_result_validation df).summary) ∧
    (vals.sum < 0 →
      CheckMsg.negativeAmount ∈ (basic_result_validation df).summary ∧
      CheckMsg.zeroAmount ∉ (basic_result_validation df).summary) := by
  constructor
  · intro hsum
    constructor
    · rw [mem_summary_iff df hne]
      refine Or.inr (Or.inl ⟨vals, hcol, ?_⟩)
      rw [mem_amountChecks_iff]
      exact Or.inr (Or.inr ⟨rfl, by simp [hsum], hsum⟩)
    · rw [mem_summary_iff df hne]
      rintro (h | ⟨v, hv, hm⟩ | ⟨v, hv, hm⟩)
      · exact absurd h (by simp)
      · rw [hcol] at hv
        obtain rfl := Option.some.inj hv
        rw [mem_amountChecks_iff] at hm
        rcases hm with h | ⟨_, hlt⟩ | ⟨h, _⟩
        · exact absurd h (by simp)
        · rw [hsum] at hlt; exact absurd hlt (by norm_num)
        · exact absurd h (by simp)
      · rw [mem_fraudChecks_iff] at hm
        rcases hm with h | ⟨h, _⟩ | ⟨h, _⟩ <;> exact absurd h (by simp)
  · intro hsum
    constructor
    · rw [mem_summary_iff df hne]
      refine Or.inr (Or.inl ⟨vals, hcol, ?_⟩)
      rw [mem_amountChecks_iff]
      exact Or.inr (Or.inl ⟨rfl, hsum⟩)
    · rw [mem_summary_iff df hne]
      rintro (h | ⟨v, hv, hm⟩ | ⟨v, hv, hm⟩)
      · exact absurd h (by simp)
      · rw [hcol] at hv
        obtain rfl := Option.some.inj hv
        rw [mem_amountChecks_iff] at hm
        rcases hm with h | ⟨h, _⟩ | ⟨_, hnlt, _⟩
        · exact absurd h (by simp)
        · exact absurd h (by simp)
        · exact absurd hsum hnlt
      · rw [mem_fraudChecks_iff] at hm
        rcases hm with h | ⟨h, _⟩ | ⟨h, _⟩ <;> exact absurd h (by simp)

/-- C3 witness: a single-row amount column summing to zero. -/
theorem validation_amount_zero_negative_witness :
    (⟨["amount"], [[0]]⟩ : DataFrame).isEmptyDf = false ∧
    (⟨["amount"], [[0]]⟩ : DataFrame).col "amount" = some [0] ∧
    (([(0 : Rat)].sum = 0 →
      CheckMsg.zeroAmount ∈ (basic_result_validation ⟨["amount"], [[0]]⟩).summary ∧
      CheckMsg.negativeAmount ∉ (basic_result_validation ⟨["amount"], [[0]]⟩).summary) ∧
    ([(0 : Rat)].sum < 0 →
      CheckMsg.negativeAmount ∈ (basic_result_validation ⟨["amount"], [[0]]⟩).summary ∧
      CheckMsg.zeroAmount ∉ (basic_result_validation ⟨["amount"], [[0]]⟩).summary)) :=
  ⟨by decide, by simp [DataFrame.col, colIndex],
   validation_amount_zero_negative ⟨["amount"], [[0]]⟩ [0] (by decide)
     (by simp [DataFrame.col, colIndex])⟩

/-- C4: for a non-empty result with an is_fraud column, a mean of exactly
5% triggers neither threshold message; the high warning appears exactly
when the percentage rate strictly exceeds 10 and the low note exactly
when it is strictly below 0.1. -/
theorem validation_fraud_thresholds (df : DataFrame) (vals : List Rat)
    (hne : df.isEmptyDf = false) (hcol : df.col "is_fraud" = some vals) :
    (vals.sum / (vals.length : Rat) = 1 / 20 →
      CheckMsg.highFraud ∉ (basic_result_validation df).summary ∧
      CheckMsg.lowFraud ∉ (basic_result_validation df).summary) ∧
    (CheckMsg.highFraud ∈ (basic_result_validation df).summary ↔
      vals.sum / (vals.length : Rat) * 100 > 10) ∧
    (CheckMsg.lowFraud ∈ (basic_result_validation df).summary ↔
      vals.sum / (vals.length : Rat) * 100 < 1 / 10) := by
  have hhigh : CheckMsg.highFraud ∈ (basic_result_validation df).summary ↔
      vals.sum / (vals.length : Rat) * 100 > 10 := by
    rw [mem_summary_iff df hne]
    constructor
    · rintro (h | ⟨v, hv, hm⟩ | ⟨v, hv, hm⟩)
      · exact absurd h (by simp)
      · rw [mem_amountChecks_iff] at hm
        rcases hm with h | ⟨h, _⟩ | ⟨h, _⟩ <;> exact absurd h (by simp)
      · rw [hcol] at hv
        obtain rfl := Option.some.inj hv
        rw [mem_fraudChecks_iff] at hm
        rcases hm with h | ⟨_, hgt⟩ | ⟨h, _⟩
        · exact absurd h (by simp)
        · exact hgt
        · exact absurd h (by simp)
    · intro hgt
      refine Or.inr (Or.inr ⟨vals, hcol, ?_⟩)
      rw [mem_fraudChecks_iff]
      exact Or.inr (Or.inl ⟨rfl, hgt⟩)
  have hlow : CheckMsg.lowFraud ∈ (basic_result_validation df).summary ↔
      vals.sum / (vals.length : Rat) * 100 < 1 / 10 := by
    rw [mem_summary_iff df hne]
    constructor
    · rintro (h | ⟨v, hv, hm⟩ | ⟨v, hv, hm⟩)
      · exact absurd h (by simp)
      · rw [mem_amountChecks_iff] at hm
        rcases hm with h | ⟨h, _⟩ | ⟨h, _⟩ <;> exact absurd h (by simp)
      · rw [hcol] at hv
        obtain rfl := Option.some.inj hv
        rw [mem_fraudChecks_iff] at hm
        rcases hm with h | ⟨h, _⟩ | ⟨_, _, hlt⟩
        · exact absurd h (by simp)
        · exact absurd h (by simp)
        · exact hlt
    · intro hlt
      refine Or.inr (Or.inr ⟨vals, hcol, ?_⟩)
      rw [mem_fraudChecks_iff]
      refine Or.inr (Or.inr ⟨rfl, ?_, hlt⟩)
      intro hgt
      linarith [hlt, hgt]
  refine ⟨?_, hhigh, hlow⟩
  intro hmean
  have hrate : vals.sum / (vals.length : Rat) * 100 = 5 := by
    rw [hmean]; norm_num
  constructor
  · rw [hhigh, hrate]; norm_num
  · rw [hlow, hrate]; norm_num

/-- C4 witness: a single-row is_fraud column whose mean is exactly 5%. -/
theorem validation_fraud_thresholds_witness :
    (⟨["is_fraud"], [[1 / 20]]⟩ : DataFrame).isEmptyDf = false ∧
    (⟨["is_fraud"], [[1 / 20]]⟩ : DataFrame).col "is_fraud" = some [1 / 20] ∧
    (([(1 / 20 : Rat)].sum / (([(1 / 20 : Rat)].length : Nat) : Rat) = 1 / 20 →
      CheckMsg.highFraud ∉ (basic_result_validation ⟨["is_fraud"], [[1 / 20]]⟩).summary ∧
      CheckMsg.lowFraud ∉ (basic_result_validation ⟨["is_fraud"], [[1 / 20]]⟩).summary) ∧
    (CheckMsg.highFraud ∈ (basic_result_validation ⟨["is_fraud"], [[1 / 20]]⟩).summary ↔
      [(1 / 20 : Rat)].sum / (([(1 / 20 : Rat)].length : Nat) : Rat) * 100 > 10) ∧
    (CheckMsg.lowFraud ∈ (basic_result_validation ⟨["is_fraud"], [[1 / 20]]⟩).summary ↔
      [(1 / 20 : Rat)].sum / (([(1 / 20 : Rat)].length : Nat) : Rat) * 100 < 1 / 10)) :=
  ⟨by decide, by simp [DataFrame.col, colIndex],
   validation_fraud_thresholds ⟨["is_fraud"], [[1 / 20]]⟩ [1 / 20] (by decide)
     (by simp [DataFrame.col, colIndex])⟩

/-- C9: the validator is a total pure function — it always returns a
non-empty message sequence, and when the amount or is_fraud column is
absent no message of the corresponding block appears. -/
theorem validation_pure_skip (df : DataFrame) :
    (basic_result_validation df).summary ≠ [] ∧
    ("amount" ∉ df.columns →
      ∀ m ∈ (basic_result_validation df).summary, m.isAmountMsg = false) ∧
    ("is_fraud" ∉ df.columns →
      ∀ m ∈ (basic_result_validation df).summary, m.isFraudMsg = false) := by
  by_cases he : df.isEmptyDf = true
  · refine ⟨by simp [basic_result_validation, he], ?_, ?_⟩ <;>
      intro hnot m hm <;>
      simp [basic_result_validation, he] at hm <;>
      simp [hm, CheckMsg.isAmountMsg, CheckMsg.isFraudMsg]
  · have hne : df.isEmptyDf = false := by
      revert he; cases df.isEmptyDf <;> simp
    refine ⟨by simp [basic_result_validation, hne], ?_, ?_⟩
    · intro hnot m hm
      have hcol : df.col "amount" = none := by
        unfold DataFrame.col
        rw [(colIndex_eq_none_iff "amount" df.columns).mpr hnot]
        rfl
      rw [mem_summary_iff df hne] at hm
      rcases hm with h | ⟨v, hv, _⟩ | ⟨v, hv, hm⟩
      · simp [h, CheckMsg.isAmountMsg]
      · rw [hcol] at hv; exact absurd hv (by simp)
      · rw [mem_fraudChecks_iff] at hm
        rcases hm with h | ⟨h, _⟩ | ⟨h, _⟩ <;> simp [h, CheckMsg.isAmountMsg]
    · intro hnot m hm
      have hcol : df.col "is_fraud" = none := by
        unfold DataFrame.col
        rw [(colIndex_eq_none_iff "is_fraud" df.columns).mpr hnot]
        rfl
      rw [mem_summary_iff df hne] at hm
      rcases hm with h | ⟨v, hv, hm⟩ | ⟨v, hv, _⟩
      · simp [h, CheckMsg.isFraudMsg]
      · rw [mem_amountChecks_iff] at hm
        rcases hm with h | ⟨h, _⟩ | ⟨h, _⟩ <;> simp [h, CheckMsg.isFraudMsg]
      · rw [hcol] at hv; exact absurd hv (by simp)

/-- C9 witness: a result with neither an amount nor an is_fraud column. -/
theorem validation_pure_skip_witness :
    (basic_result_validation ⟨["state"], [[7]]⟩).summary ≠ [] ∧
    ("amount" ∉ (⟨["state"], [[7]]⟩ : DataFrame).columns →
      ∀ m ∈ (basic_result_validation ⟨["state"], [[7]]⟩).summary, m.isAmountMsg = false) ∧
    ("is_fraud" ∉ (⟨["state"], [[7]]⟩ : DataFrame).columns →
      ∀ m ∈ (basic_result_validation ⟨["state"], [[7]]⟩).summary, m.isFraudMsg = false) :=
  validation_pure_skip ⟨["state"], [[7]]⟩

/-- Identifiers assigned by a bulk insert: the accumulator's ids followed
by a contiguous run starting at its AUTOINCREMENT counter. -/
theorem insertMany_map_fst (l : List TxRecord) (t : Table) :
    ((Table.insertMany t l).rows).map Prod.fst
      = t.rows.map Prod.fst ++ List.range' t.nextId l.length := by
  induction l generalizing t with
  | nil => simp [Table.insertMany]
  | cons r l ih =>
    have hstep : Table.insertMany t (r :: l) = Table.insertMany (t.insertRow r) l := rfl
    rw [hstep, ih]
    simp [Table.insertRow, List.range'_succ]

/-- Records stored by a bulk insert: accumulator's records then the batch. -/
theorem insertMany_map_snd (l : List TxRecord) (t : Table) :
    ((Table.insertMany t l).rows).map Prod.snd = t.rows.map Prod.snd ++ l := by
  induction l generalizing t with
  | nil => simp [Table.insertMany]
  | cons r l ih =>
    have hstep : Table.insertMany t (r :: l) = Table.insertMany (t.insertRow r) l := rfl
    rw [hstep, ih]
    simp [Table.insertRow]

/-- The freshly built table carries ids 1..5000 in order. -/
theorem builtTable_ids (draws : Nat → RandDraw) :
    (builtTable draws).rows.map Prod.fst = List.range' 1 5000 := by
  rw [builtTable, insertMany_map_fst]
  simp

/-- The freshly built table has 5000 rows. -/
theorem builtTable_length (draws : Nat → RandDraw) :
    (builtTable draws).rows.length = 5000 := by
  have h := congrArg List.length (builtTable_ids draws)
  simpa using h

/-- The freshly built table stores exactly the generated records. -/
theorem builtTable_records (draws : Nat → RandDraw) :
    (builtTable draws).rows.map Prod.snd = ((List.range 5000).map draws).map v2_row := by
  rw [builtTable, insertMany_map_snd]
  simp

/-- C6: building the fixture twice always leaves exactly 5000 rows whose
identifiers are the contiguous duplicate-free sequence 1..5000, and each
build fully replaces the table — the result is independent of the prior
database state. -/
theorem create_db_rebuild (db : Option Table) (draws draws2 : Nat → RandDraw) :
    ∃ t, create_db (create_db db draws) draws2 = some t ∧
      t.rows.length = 5000 ∧
      t.rows.map Prod.fst = List.range' 1 5000 ∧
      (t.rows.map Prod.fst).Nodup ∧
      ∀ db2 : Option Table, create_db db2 draws2 = some t := by
  refine ⟨builtTable draws2, rfl, builtTable_length draws2, builtTable_ids draws2,
    ?_, fun db2 => rfl⟩
  rw [builtTable_ids draws2]
  exact List.nodup_range' 1 5000

/-- The day offset drawn by `random.randint(0, 365)` stays within a year. -/
theorem randint_0_365_le (r : Nat) : randint 0 365 r ≤ 365 := by
  unfold randint
  omega

/-- Rounding a uniform draw from [5, 5000] to two decimals stays in range
and has denominator dividing 100. -/
theorem round2_mem (u : Rat) (h5 : 5 ≤ u) (h50 : u ≤ 5000) :
    5 ≤ round2 u ∧ round2 u ≤ 5000 ∧ (round2 u * 100).den = 1 := by
  have hlow : (500 : ℤ) ≤ round (u * 100) := by
    rw [round_eq, Int.le_floor]
    push_cast
    linarith
  have hhigh : round (u * 100) ≤ 500000 := by
    rw [round_eq]
    have hfl : ((⌊u * 100 + 1 / 2⌋ : ℤ) : ℚ) ≤ u * 100 + 1 / 2 := Int.floor_le _
    have hlt : ((⌊u * 100 + 1 / 2⌋ : ℤ) : ℚ) < 500001 := by linarith
    have h2 : (⌊u * 100 + 1 / 2⌋ : ℤ) < 500001 := by exact_mod_cast hlt
    omega
  have hcast : (500 : ℚ) ≤ ((round (u * 100) : ℤ) : ℚ) := by exact_mod_cast hlow
  have hcast2 : ((round (u * 100) : ℤ) : ℚ) ≤ 500000 := by exact_mod_cast hhigh
  refine ⟨?_, ?_, ?_⟩
  · unfold round2
    rw [le_div_iff₀ (show (0 : ℚ) < 100 by norm_num)]
    linarith
  · unfold round2
    rw [div_le_iff₀ (show (0 : ℚ) < 100 by norm_num)]
    linarith
  · unfold round2
    rw [div_mul_cancel₀ _ (show (100 : ℚ) ≠ 0 by norm_num)]
    exact Rat.den_intCast _

/-- C7: every row of the built fixture satisfies the data-model
invariants — unique identifiers, a date at most 365 days before the build
date, and an amount in [5, 5000] with two decimal places. -/
theorem create_db_row_invariants (db : Option Table) (draws : Nat → RandDraw)
    (hamt : ∀ i, 5 ≤ (draws i).amountU ∧ (draws i).amountU ≤ 5000) :
    ∃ t, create_db db draws = some t ∧
      (t.rows.map Prod.fst).Nodup ∧
      ∀ p ∈ t.rows, p.2.daysAgo ≤ 365 ∧
        5 ≤ p.2.amount ∧ p.2.amount ≤ 5000 ∧ (p.2.amount * 100).den = 1 := by
  refine ⟨builtTable draws, rfl, ?_, ?_⟩
  · rw [builtTable_ids draws]
    exact List.nodup_range' 1 5000
  · intro p hp
    have hsnd : p.2 ∈ ((List.range 5000).map draws).map v2_row := by
      rw [← builtTable_records draws]
      exact List.mem_map_of_mem Prod.snd hp
    rw [List.map_map] at hsnd
    obtain ⟨i, _, hi⟩ := List.mem_map.mp hsnd
    obtain ⟨h5, h50⟩ := hamt i
    have hmem := round2_mem (draws i).amountU h5 h50
    have hrec : p.2 = v2_row (draws i) := by rw [← hi]; rfl
    rw [hrec]
    exact ⟨randint_0_365_le _, hmem.1, hmem.2.1, hmem.2.2⟩

/-- C7 witness: the build on a constant in-range draw stream. -/
theorem create_db_row_invariants_witness :
    ∃ t, create_db none (fun _ => sampleDraw) = some t ∧
      (t.rows.map Prod.fst).Nodup ∧
      ∀ p ∈ t.rows, p.2.daysAgo ≤ 365 ∧
        5 ≤ p.2.amount ∧ p.2.amount ≤ 5000 ∧ (p.2.amount * 100).den = 1 :=
  create_db_row_invariants none (fun _ => sampleDraw)
    (fun _ => ⟨by norm_num [sampleDraw], by norm_num [sampleDraw]⟩)

/-- C8: when the translation or the execution step fails, the handler
reports the failure and halts the cycle with the session state unchanged,
each service called at most once (no retry). -/
theorem handler_failure_no_mutation (s : SessionState) (q : String)
    (translate : String → Except String String)
    (execute : String → Except String DataFrame)
    (hq : pyStrip q.toList ≠ []) :
    (∀ e, translate q = Except.error e →
      handle_generate s q translate execute
        = ⟨s, some ("Error calling OpenAI API: " ++ e), 1, 0⟩) ∧
    (∀ sql e, translate q = Except.ok sql → execute sql = Except.error e →
      handle_generate s q translate execute
        = ⟨s, some ("Error running SQL: " ++ e), 1, 1⟩) := by
  have hq' : ¬ pyStrip q.data = [] := hq
  constructor
  · intro e he
    simp [handle_generate, hq, hq', he]
  · intro sql e ht he
    simp [handle_generate, hq, hq', ht, he]

/-- C8 witness: a failing translator on a non-empty question. -/
theorem handler_failure_no_mutation_witness :
    (∀ e, (Except.error "boom" : Except String String) = Except.error e →
      handle_generate ⟨none, none, none⟩ "hi" (fun _ => Except.error "boom")
          (fun _ => Except.error "nope")
        = ⟨⟨none, none, none⟩, some ("Error calling OpenAI API: " ++ e), 1, 0⟩) ∧
    (∀ sql e, (Except.error "boom" : Except String String) = Except.ok sql →
      (Except.error "nope" : Except String DataFrame) = Except.error e →
      handle_generate ⟨none, none, none⟩ "hi" (fun _ => Except.error "boom")
          (fun _ => Except.error "nope")
        = ⟨⟨none, none, none⟩, some ("Error running SQL: " ++ e), 1, 1⟩) :=
  handler_failure_no_mutation ⟨none, none, none⟩ "hi" (fun _ => Except.error "boom")
    (fun _ => Except.error "nope") (by decide)

/-- C10 counterexample: the earlier variant's INSERT has ten placeholders
and each of its row tuples has ten bound values — the counts match, so
there is no parameter-count mismatch. -/
theorem v1_insert_no_count_mismatch :
    v1_placeholders = 10 ∧ (v1_row sampleDraw).length = 10 ∧
    (v1_row sampleDraw).length = v1_placeholders :=
  ⟨rfl, rfl, rfl⟩

/-- C10 (amended): the corrected variant's INSERT has nine placeholders,
nine distinct column names and nine bound values per row; the earlier
variant's column list is malformed by listing merchant_cat twice (ten
names, not duplicate-free), while its ten placeholders match its ten
bound values per row. -/
theorem insert_variants_shape :
    v2_placeholders = 9 ∧ v2_insert_columns.length = 9 ∧ v2_insert_columns.Nodup ∧
    (∀ d, (TxRecord.boundValues (v2_row d)).length = 9) ∧
    v1_placeholders = 10 ∧ v1_insert_columns.length = 10 ∧
    ¬ v1_insert_columns.Nodup ∧ (∀ d, (v1_row d).length = 10) := by
  refine ⟨rfl, rfl, by decide, fun d => rfl, rfl, rfl, by decide, fun d => rfl⟩
